import Mathlib

/-!
# VoiceFlow: shallow embedding and verification

Shallow embedding of the VoiceFlow voice-dictation script (two variants:
`src/voiceflow.py`, called v1 below, and `src/src/voiceflow.py`, called v2).
Pure logic (the sentence-newline rule, the provider fallback chains, the
session state machine driven by hotkey press/release, and the
`process_audio` pipeline) is translated into executable Lean definitions;
external effects (microphone, ffmpeg, HTTP providers, clipboard/paste) are
modelled by oracle environments recording which calls were issued and with
which parameters, and a run record tracking file-system, clipboard and
paste side effects.
-/

namespace VoiceFlow

/-! ## Constants (v1 lines 41-46, identical in v2) -/

def CHUNK : Nat := 1024
def RATE : Nat := 44100
def MAX_RECORD_SECONDS : Nat := 300

/-! ## Python string primitives used by `process_transcription`

`str.strip()` and `re.split(r'(?<=[.!?])\s+', s)` from v1 lines 314-317
(v2 lines 345-348).  Whitespace is modelled as the ASCII whitespace set
Python recognises (space, tab, newline, carriage return, vertical tab,
form feed). -/

def pyIsSpace (c : Char) : Bool :=
  c = ' ' || c = '\t' || c = '\n' || c = '\x0d' || c = '\x0b' || c = '\x0c'

def isSentencePunct (c : Char) : Bool :=
  c = '.' || c = '!' || c = '?'

/-- Python `str.rstrip()` on a character list. -/
def pyRstrip (l : List Char) : List Char :=
  (l.reverse.dropWhile pyIsSpace).reverse

/-- Python `str.strip()` on a character list: drop whitespace at both ends. -/
def pyStripL (l : List Char) : List Char :=
  (pyRstrip l).dropWhile pyIsSpace

def pyStrip (s : String) : String :=
  String.mk (pyStripL s.data)

/-- Lookbehind test: the character just scanned (head of the reversed
current piece) is `.`, `!` or `?`. -/
def lastIsPunct (acc : List Char) : Bool :=
  match acc with
  | p :: _ => isSentencePunct p
  | [] => false

/-- Translation of `re.split(r'(?<=[.!?])\s+', s)` on a character list: split at every
maximal whitespace run whose immediately preceding character is `.`, `!`
or `?`.  `acc` holds the current piece reversed (its head is the character
just before the scanner, giving the lookbehind); `splitting` records that
the scanner is inside a matched whitespace run, whose remaining whitespace
is consumed without starting a new match. -/
def reSplitSentGo (splitting : Bool) (acc : List Char) : List Char → List (List Char)
  | [] => [acc.reverse]
  | c :: rest =>
    if splitting && pyIsSpace c then
      reSplitSentGo splitting acc rest
    else if !splitting && pyIsSpace c && lastIsPunct acc then
      acc.reverse :: reSplitSentGo true [] rest
    else
      reSplitSentGo false (c :: acc) rest

/-- Translation of `re.split(r'(?<=[.!?])\s+', s)` as a list of strings. -/
def reSplitSent (s : String) : List String :=
  (reSplitSentGo false [] s.data).map String.mk

/-- The post-processing rule at the end of `process_transcription`
(v1 lines 314-317, v2 lines 345-348):

    sentences = re.split(r'(?<=[.!?])\s+', processed_text.strip())
    if len(sentences) > 1:
        processed_text += '\n'
-/
def sentenceNewlineRule (processed_text : String) : String :=
  if (reSplitSent (pyStrip processed_text)).length > 1 then
    processed_text ++ "\n"
  else
    processed_text

/-! ## Provider chains

External HTTP/SDK calls are modelled by oracle environments: for each
provider one `Option String` field, `some t` meaning the attempt returned
normally with payload `t`, `none` meaning it raised (connection error,
HTTP error surfaced by `raise_for_status`, timeout, SDK exception).  Each
function returns its result together with the list of attempts it issued,
each attempt recording the provider, the credential attached to the
request and the explicit `timeout=` parameter passed (`none` when the
call passes no timeout parameter). -/

inductive Provider where
  | groqWhisper      -- v1 transcription, Groq SDK
  | deepgram         -- v1 transcription fallback, Deepgram SDK
  | fireworks        -- v2 transcription, requests.post
  | groqWhisper2     -- v2 transcription fallback, Groq SDK
  | groqChat         -- v1 cleanup, requests.post
  | cerebras         -- v2 cleanup, requests.post
  | openaiChat       -- cleanup fallback in both variants, requests.post
deriving Repr, DecidableEq

structure Attempt where
  provider : Provider
  key : String
  timeout : Option Nat
deriving Repr, DecidableEq

/-- Oracle environment for v1 `transcribe_audio` (lines 190-257).
Credentials are read from the environment at call time; an unset or empty
variable is modelled as `""`. -/
structure TEnv1 where
  fileExists : Bool
  wavValid : Bool
  fileSize : Nat
  groqKey : String
  deepgramKey : String
  groqResult : Option String
  deepgramResult : Option String
deriving Repr, DecidableEq

/-- v1 `transcribe_audio` (lines 190-257): existence, WAV-validity and
non-emptiness checks, then Groq SDK, then Deepgram SDK, each attempted
unconditionally (no credential guard) and with no explicit timeout. -/
def transcribe_audio1 (env : TEnv1) : Option String × List Attempt :=
  if !env.fileExists then (none, [])
  else if !env.wavValid then (none, [])
  else if env.fileSize = 0 then (none, [])
  else
    let groqAtt : Attempt := ⟨.groqWhisper, env.groqKey, none⟩
    match env.groqResult with
    | some t => (some t, [groqAtt])
    | none =>
      let dgAtt : Attempt := ⟨.deepgram, env.deepgramKey, none⟩
      match env.deepgramResult with
      | some t => (some t, [groqAtt, dgAtt])
      | none => (none, [groqAtt, dgAtt])

/-- Oracle environment for v2 `transcribe_audio` (lines 213-275). -/
structure TEnv2 where
  fileExists : Bool
  fireworksKey : String
  groqKey : String
  fireworksResult : Option String
  groqResult : Option String
deriving Repr, DecidableEq

/-- v2 `transcribe_audio` (lines 213-275): Fireworks via `requests.post`
with `timeout=30`, guarded by `if FIREWORKS_API_KEY:`, then Groq SDK with
no explicit timeout, guarded by `if GROQ_API_KEY:`; both successful
responses pass through `.strip()`. -/
def transcribe_audio2 (env : TEnv2) : Option String × List Attempt :=
  if !env.fileExists then (none, [])
  else
    let groqStage : List Attempt → Option String × List Attempt := fun soFar =>
      if env.groqKey ≠ "" then
        let att : Attempt := ⟨.groqWhisper2, env.groqKey, none⟩
        match env.groqResult with
        | some t => (some (pyStrip t), soFar ++ [att])
        | none => (none, soFar ++ [att])
      else (none, soFar)
    if env.fireworksKey ≠ "" then
      let att : Attempt := ⟨.fireworks, env.fireworksKey, some 30⟩
      match env.fireworksResult with
      | some t => (some (pyStrip t), [att])
      | none => groqStage [att]
    else groqStage []

/-- Oracle environment for v1 `process_transcription` (lines 260-322);
v2 (lines 278-353) is identical with Cerebras as the primary provider. -/
structure CEnv1 where
  groqKey : String
  openaiKey : String
  groqResult : Option String
  openaiResult : Option String
deriving Repr, DecidableEq

/-- v1 `process_transcription` (lines 260-322): Groq chat completion via
`requests.post` with `timeout=30`, on `requests.RequestException` fall
back to OpenAI via `requests.post` with `timeout=30`; no credential guard
on either (the bearer header carries whatever the key variable holds).
A successful result then passes through the sentence-newline rule
(lines 314-317). -/
def process_transcription1 (env : CEnv1) (_transcription : String) :
    Option String × List Attempt :=
  let primary : Attempt := ⟨.groqChat, env.groqKey, some 30⟩
  match env.groqResult with
  | some t => (some (sentenceNewlineRule t), [primary])
  | none =>
    let fallback : Attempt := ⟨.openaiChat, env.openaiKey, some 30⟩
    match env.openaiResult with
    | some t => (some (sentenceNewlineRule t), [primary, fallback])
    | none => (none, [primary, fallback])

/-- Oracle environment for v2 `process_transcription` (lines 278-353). -/
structure CEnv2 where
  cerebrasKey : String
  openaiKey : String
  cerebrasResult : Option String
  openaiResult : Option String
deriving Repr, DecidableEq

/-- v2 `process_transcription` (lines 278-353): Cerebras then OpenAI,
both via `requests.post` with `timeout=30`, no credential guard. -/
def process_transcription2 (env : CEnv2) (_transcription : String) :
    Option String × List Attempt :=
  let primary : Attempt := ⟨.cerebras, env.cerebrasKey, some 30⟩
  match env.cerebrasResult with
  | some t => (some (sentenceNewlineRule t), [primary])
  | none =>
    let fallback : Attempt := ⟨.openaiChat, env.openaiKey, some 30⟩
    match env.openaiResult with
    | some t => (some (sentenceNewlineRule t), [primary, fallback])
    | none => (none, [primary, fallback])

/-! ## The `process_audio` pipeline (v1 lines 117-187)

A run is summarised by the external effects it performs: the raw temp WAV
(created and written with `b''.join(frames)` before any check), the ffmpeg
resampler invocation, the provider attempts of both chains, the clipboard
value after the run, the text pasted into the active window (if any), and
the two unlinks of the `finally` block.  The `finally` block unlinks the
raw temp file first and then the ffmpeg output file; on a filesystem clean
of leftovers from earlier cycles the second unlink succeeds exactly when
ffmpeg ran and produced its output this cycle.  `pyperclip.copy` raises
`PyperclipException` on a non-string argument, so a `None` cleanup result
aborts before any clipboard write. -/

structure Run where
  tempCreated : Bool
  tempBytes : List Nat
  ffmpegInvoked : Bool
  transcribeAttempts : List Attempt
  cleanupAttempts : List Attempt
  clipboard : String
  pasted : Option String
  tempDeleted : Bool
  processedDeleted : Bool
deriving Repr, DecidableEq

structure PEnv1 where
  ffmpegOk : Bool
  tEnv : TEnv1
  cEnv : CEnv1
deriving Repr, DecidableEq

/-- v1 `process_audio` (lines 117-187).  `frames` is the chunk buffer
(each chunk a byte block, abstracted as `List Nat`); `clipboard0` is the
clipboard value before the run.  The guard `len(frames) < RATE / CHUNK`
(line 139, a float division) is written in the equivalent integer form
`frames.length * CHUNK < RATE`. -/
def process_audio1 (env : PEnv1) (frames : List (List Nat)) (clipboard0 : String) : Run :=
  let base : Run :=
    { tempCreated := true, tempBytes := frames.flatten, ffmpegInvoked := false,
      transcribeAttempts := [], cleanupAttempts := [], clipboard := clipboard0,
      pasted := none, tempDeleted := true, processedDeleted := false }
  if frames.length * CHUNK < RATE then
    base
  else if !env.ffmpegOk then
    { base with ffmpegInvoked := true }
  else
    match transcribe_audio1 env.tEnv with
    | (t, tAtt) =>
      let r1 := { base with ffmpegInvoked := true, transcribeAttempts := tAtt,
                            processedDeleted := true }
      match t with
      | none => r1
      | some s =>
        if s = "" then r1
        else
          match process_transcription1 env.cEnv s with
          | (c, cAtt) =>
            let r2 := { r1 with cleanupAttempts := cAtt }
            match c with
            | none => r2
            | some out => { r2 with clipboard := out, pasted := some out }

structure PEnv2 where
  ffmpegOk : Bool
  tEnv : TEnv2
  cEnv : CEnv2
deriving Repr, DecidableEq

/-- v2 `process_audio` (lines 140-210): control flow line-identical to
v1's (temp-file write before the length check, ffmpeg, `if not
transcription: raise`, cleanup, output, `finally` unlinks), calling the
v2 provider chains `transcribe_audio2` and `process_transcription2`. -/
def process_audio2 (env : PEnv2) (frames : List (List Nat)) (clipboard0 : String) : Run :=
  let base : Run :=
    { tempCreated := true, tempBytes := frames.flatten, ffmpegInvoked := false,
      transcribeAttempts := [], cleanupAttempts := [], clipboard := clipboard0,
      pasted := none, tempDeleted := true, processedDeleted := false }
  if frames.length * CHUNK < RATE then
    base
  else if !env.ffmpegOk then
    { base with ffmpegInvoked := true }
  else
    match transcribe_audio2 env.tEnv with
    | (t, tAtt) =>
      let r1 := { base with ffmpegInvoked := true, transcribeAttempts := tAtt,
                            processedDeleted := true }
      match t with
      | none => r1
      | some s =>
        if s = "" then r1
        else
          match process_transcription2 env.cEnv s with
          | (c, cAtt) =>
            let r2 := { r1 with cleanupAttempts := cAtt }
            match c with
            | none => r2
            | some out => { r2 with clipboard := out, pasted := some out }

/-! ## Session state machine (v1 lines 59-114)

The hotkey callbacks `on_press`/`on_release` and the capture loop
`record_audio`, over the global state `is_recording`, `frames`,
`alt_pressed`.  Chunks are abstracted to tick indices; one loop iteration
reads one chunk and advances time by one abstract tick, with the 300-tick
cap standing for the 300-second wall-clock cap checked at the top of the
loop.  Keys are the alt modifier, character keys (which expose `.char`),
and other special keys (whose `.char` access raises `AttributeError`,
caught and ignored). -/

inductive Key where
  | alt
  | char (c : Char)
  | special
deriving Repr, DecidableEq

structure SessionState where
  is_recording : Bool
  alt_pressed : Bool
  frames : List Nat
  threadsSpawned : Nat
  pipelineRuns : Nat
  elapsed : Nat
deriving Repr, DecidableEq

/-- The call to `process_audio` as seen from the session level: only its occurrence is
tracked here (its external effects are modelled by `process_audio1`). -/
def runPipeline (st : SessionState) : SessionState :=
  { st with pipelineRuns := st.pipelineRuns + 1 }

/-- v1 `on_press` (lines 66-77): alt sets the modifier flag; `'t'` with
alt held starts a recording only when not already recording (the guard
`not is_recording`), resetting the buffer and spawning one capture
thread; other keys are ignored. -/
def on_press (key : Key) (st : SessionState) : SessionState :=
  match key with
  | .alt => { st with alt_pressed := true }
  | .char c =>
    if c = 't' ∧ st.alt_pressed ∧ ¬st.is_recording then
      { st with is_recording := true, frames := [],
                threadsSpawned := st.threadsSpawned + 1 }
    else st
  | .special => st

/-- v1 `on_release` (lines 80-90): releasing alt clears the modifier
flag; releasing alt or `'t'` while recording stops the recording and runs
`process_audio`. -/
def on_release (key : Key) (st : SessionState) : SessionState :=
  match key with
  | .alt =>
    let st1 := { st with alt_pressed := false }
    if st1.is_recording then runPipeline { st1 with is_recording := false } else st1
  | .char c =>
    if c = 't' ∧ st.is_recording then
      runPipeline { st with is_recording := false }
    else st
  | .special => st

/-- The capture loop of v1 `record_audio` (lines 100-109):
`while is_recording and (time.time() - start_time) < MAX_RECORD_SECONDS`,
each iteration appending one chunk.  The loop only reads `is_recording`;
nothing in it calls `process_audio` or clears the flag. -/
def record_loop (st : SessionState) : SessionState :=
  if st.is_recording ∧ st.elapsed < MAX_RECORD_SECONDS then
    record_loop { st with frames := st.frames ++ [st.elapsed],
                          elapsed := st.elapsed + 1 }
  else st
termination_by MAX_RECORD_SECONDS - st.elapsed
decreasing_by simp_wf; omega

/-! ## Trace predicates

Boolean predicates on attempts, used to state chain properties in a form
a concrete witness can evaluate. -/

/-- The credential attached to the attempt is non-empty. -/
def keyNonempty (a : Attempt) : Bool := !(a.key == "")

/-- The attempt is not a Fireworks invocation. -/
def notFireworks (a : Attempt) : Bool :=
  match a.provider with
  | .fireworks => false
  | _ => true

/-- The attempt is not a v2 Groq SDK invocation. -/
def notGroqSdk2 (a : Attempt) : Bool :=
  match a.provider with
  | .groqWhisper2 => false
  | _ => true

/-- The attempt passes an explicit 30-second timeout. -/
def timeout30 (a : Attempt) : Bool := a.timeout == some 30

/-- If the attempt is the Fireworks `requests.post` call, it passes an
explicit 30-second timeout. -/
def fireworksHas30 (a : Attempt) : Bool :=
  match a.provider with
  | .fireworks => a.timeout == some 30
  | _ => true

/-- If the attempt goes through an SDK client (Groq in either variant,
Deepgram), no explicit timeout parameter is passed. -/
def sdkNoTimeout (a : Attempt) : Bool :=
  match a.provider with
  | .groqWhisper => a.timeout == none
  | .deepgram => a.timeout == none
  | .groqWhisper2 => a.timeout == none
  | _ => true

/-! ## Lemmas about the sentence-newline rule -/

theorem pyRstrip_append_newline (l : List Char) :
    pyRstrip (l ++ ['\n']) = pyRstrip l := by
  simp only [pyRstrip, List.reverse_append, List.reverse_cons, List.reverse_nil,
    List.nil_append, List.singleton_append]
  rw [List.dropWhile_cons_of_pos (by decide : pyIsSpace '\n' = true)]

theorem pyStripL_append_newline (l : List Char) :
    pyStripL (l ++ ['\n']) = pyStripL l := by
  simp only [pyStripL, pyRstrip_append_newline]

/-- Appending the trailing newline does not change the stripped text,
hence not the sentence count either. -/
theorem pyStrip_append_newline (s : String) :
    pyStrip (s ++ "\n") = pyStrip s := by
  simp only [pyStrip, String.data_append]
  rw [pyStripL_append_newline]

theorem sentenceNewlineRule_of_one (t : String)
    (h : (reSplitSent (pyStrip t)).length = 1) :
    sentenceNewlineRule t = t := by
  simp only [sentenceNewlineRule, h]
  norm_num

theorem sentenceNewlineRule_of_two_le (t : String)
    (h : 1 < (reSplitSent (pyStrip t)).length) :
    sentenceNewlineRule t = t ++ "\n" := by
  simp only [sentenceNewlineRule, if_pos h]

/-! ## Lemmas about the capture loop -/

/-- The capture loop never clears `is_recording`: expiry of the hard cap
leaves the recording flag set. -/
theorem record_loop_is_recording (st : SessionState) :
    (record_loop st).is_recording = st.is_recording := by
  induction st using record_loop.induct with
  | case1 st h ih => rw [record_loop, if_pos h]; exact ih
  | case2 st h => rw [record_loop, if_neg h]

/-- The capture loop never invokes the downstream pipeline. -/
theorem record_loop_pipelineRuns (st : SessionState) :
    (record_loop st).pipelineRuns = st.pipelineRuns := by
  induction st using record_loop.induct with
  | case1 st h ih => rw [record_loop, if_pos h]; exact ih
  | case2 st h => rw [record_loop, if_neg h]

/-- While recording, the loop keeps appending until the hard cap. -/
theorem record_loop_elapsed (st : SessionState) (h : st.is_recording = true) :
    (record_loop st).elapsed = max st.elapsed MAX_RECORD_SECONDS := by
  induction st using record_loop.induct with
  | case1 st hc ih =>
    rw [record_loop, if_pos hc]
    rw [ih h]
    simp only []
    omega
  | case2 st hc =>
    rw [record_loop, if_neg hc]
    rw [h] at hc
    simp only [true_and] at hc
    omega

/-! ## Claim theorems -/

/-- C4 (counterexample): the sentence-newline rule is not idempotent.
`"Hi. Yo"` splits into two sentences, so one application appends a
newline; stripping removes that newline before recounting, so a second
application appends another one. -/
theorem C4_counterexample :
    sentenceNewlineRule (sentenceNewlineRule "Hi. Yo") ≠
      sentenceNewlineRule "Hi. Yo" := by
  decide

/-- C4 (amended): text whose stripped form splits into exactly one
sentence (boundary test: `.`, `!` or `?` followed by whitespace) is
returned unchanged, and the rule is idempotent there; text splitting into
two or more sentences gets exactly one trailing newline appended per
application, and reapplying the rule to its own output appends a further
newline each time (the rule is not idempotent on multi-sentence text). -/
theorem C4_sentence_rule_amended (t : String) :
    ((reSplitSent (pyStrip t)).length = 1 →
      sentenceNewlineRule t = t ∧
      sentenceNewlineRule (sentenceNewlineRule t) = sentenceNewlineRule t) ∧
    (1 < (reSplitSent (pyStrip t)).length →
      sentenceNewlineRule t = t ++ "\n" ∧
      sentenceNewlineRule (sentenceNewlineRule t) = sentenceNewlineRule t ++ "\n") := by
  constructor
  · intro h
    have h1 := sentenceNewlineRule_of_one t h
    exact ⟨h1, by rw [h1]; exact h1⟩
  · intro h
    have h1 := sentenceNewlineRule_of_two_le t h
    refine ⟨h1, ?_⟩
    rw [h1]
    have h2 : 1 < (reSplitSent (pyStrip (t ++ "\n"))).length := by
      rw [pyStrip_append_newline]; exact h
    exact sentenceNewlineRule_of_two_le _ h2

/-- Witness for `C4_sentence_rule_amended`: the one-sentence branch at
`"Hello there."` and the multi-sentence branch at `"One. Two"`. -/
theorem C4_sentence_rule_amended_witness :
    (sentenceNewlineRule "Hello there." = "Hello there." ∧
      sentenceNewlineRule (sentenceNewlineRule "Hello there.") =
        sentenceNewlineRule "Hello there.") ∧
    (sentenceNewlineRule "One. Two" = "One. Two" ++ "\n" ∧
      sentenceNewlineRule (sentenceNewlineRule "One. Two") =
        sentenceNewlineRule "One. Two" ++ "\n") :=
  ⟨(C4_sentence_rule_amended "Hello there.").1 (by decide),
   (C4_sentence_rule_amended "One. Two").2 (by decide)⟩

/-- C7: pressing the start hotkey (`'t'` with alt held) while the session
is already Recording is a complete no-op: the state is unchanged, so in
particular no second capture thread is spawned (`threadsSpawned` keeps its
value) and the frame buffer is not reset. -/
theorem C7_start_while_recording_noop (st : SessionState)
    (h : st.is_recording = true) :
    on_press (Key.char 't') st = st ∧
    (on_press (Key.char 't') st).threadsSpawned = st.threadsSpawned ∧
    (on_press (Key.char 't') st).frames = st.frames := by
  have hno : on_press (Key.char 't') st = st := by
    simp only [on_press]
    rw [if_neg]
    simp [h]
  exact ⟨hno, by rw [hno], by rw [hno]⟩

/-- Witness for `C7_start_while_recording_noop` at a concrete mid-flight
recording state. -/
theorem C7_start_while_recording_noop_witness :
    on_press (Key.char 't') ⟨true, true, [7, 8], 1, 0, 2⟩ =
      (⟨true, true, [7, 8], 1, 0, 2⟩ : SessionState) ∧
    (on_press (Key.char 't') ⟨true, true, [7, 8], 1, 0, 2⟩).threadsSpawned = 1 ∧
    (on_press (Key.char 't') ⟨true, true, [7, 8], 1, 0, 2⟩).frames = [7, 8] :=
  C7_start_while_recording_noop ⟨true, true, [7, 8], 1, 0, 2⟩ rfl

/-- C3 (counterexample): starting the capture loop in a recording session
that is never told to stop, the loop halts at the cap on its own, but the
session does not behave as if `stop()` had been called: `is_recording`
stays `true` (the state does not return to Idle) and the downstream
pipeline never runs (`process_audio` is only ever called from
`on_release`). -/
theorem C3_counterexample :
    (record_loop ⟨true, true, [], 1, 0, 0⟩).is_recording = true ∧
    (record_loop ⟨true, true, [], 1, 0, 0⟩).pipelineRuns = 0 :=
  ⟨(record_loop_is_recording _).trans rfl, (record_loop_pipelineRuns _).trans rfl⟩

/-- C3 (amended): on reaching the 300-tick hard cap the capture loop stops
appending on its own (`elapsed` is capped at `MAX_RECORD_SECONDS`), but the
session does not then behave as if `stop()` had been called: it remains
Recording and the downstream pipeline does not run.  Only a subsequent
hotkey release stops the session, runs the pipeline once, and clears the
recording flag. -/
theorem C3_cap_amended (st : SessionState) (h : st.is_recording = true) :
    (record_loop st).elapsed = max st.elapsed MAX_RECORD_SECONDS ∧
    (record_loop st).is_recording = true ∧
    (record_loop st).pipelineRuns = st.pipelineRuns ∧
    (on_release (Key.char 't') (record_loop st)).pipelineRuns = st.pipelineRuns + 1 ∧
    (on_release (Key.char 't') (record_loop st)).is_recording = false := by
  have hr := record_loop_is_recording st
  have hp := record_loop_pipelineRuns st
  rw [h] at hr
  refine ⟨record_loop_elapsed st h, hr, hp, ?_, ?_⟩
  · simp only [on_release]
    rw [if_pos ⟨trivial, hr⟩]
    simp [runPipeline, hp]
  · simp only [on_release]
    rw [if_pos ⟨trivial, hr⟩]
    simp [runPipeline]

/-- Witness for `C3_cap_amended` at a fresh recording session. -/
theorem C3_cap_amended_witness :
    (record_loop ⟨true, true, [], 1, 0, 0⟩).elapsed = max 0 MAX_RECORD_SECONDS ∧
    (record_loop ⟨true, true, [], 1, 0, 0⟩).is_recording = true ∧
    (record_loop ⟨true, true, [], 1, 0, 0⟩).pipelineRuns = 0 ∧
    (on_release (Key.char 't') (record_loop ⟨true, true, [], 1, 0, 0⟩)).pipelineRuns = 0 + 1 ∧
    (on_release (Key.char 't') (record_loop ⟨true, true, [], 1, 0, 0⟩)).is_recording = false :=
  C3_cap_amended ⟨true, true, [], 1, 0, 0⟩ rfl

/-- C1 (counterexample): the v1 cleanup chain issues its primary request
even though the Groq credential is the empty string — the
`requests.post` call is made unconditionally with `Bearer <key>` — so a
provider whose credential is empty IS invoked, refuting the claim for
this chain. -/
theorem C1_counterexample :
    ((process_transcription1 ⟨"", "sk-openai", none, some "Cleaned."⟩ "raw").2.all
      keyNonempty) = false := by
  decide

/-- C1 (amended): only the v2 transcription chain guards on credentials —
a provider there whose key is empty is never invoked.  The v1
transcription chain and the cleanup chains of both variants issue their
attempts unconditionally, with whatever (possibly empty) key the
environment holds. -/
theorem C1_credential_guard_amended (env2 : TEnv2) (env1 : TEnv1) (cenv : CEnv1)
    (cenv2 : CEnv2) (t : String) :
    (env2.fireworksKey = "" → ((transcribe_audio2 env2).2.all notFireworks) = true) ∧
    (env2.groqKey = "" → ((transcribe_audio2 env2).2.all notGroqSdk2) = true) ∧
    (env1.fileExists = true → env1.wavValid = true → env1.fileSize ≠ 0 →
      (transcribe_audio1 env1).2.map Attempt.key = [env1.groqKey] ∨
      (transcribe_audio1 env1).2.map Attempt.key = [env1.groqKey, env1.deepgramKey]) ∧
    ((process_transcription1 cenv t).2.map Attempt.key = [cenv.groqKey] ∨
      (process_transcription1 cenv t).2.map Attempt.key = [cenv.groqKey, cenv.openaiKey]) ∧
    ((process_transcription2 cenv2 t).2.map Attempt.key = [cenv2.cerebrasKey] ∨
      (process_transcription2 cenv2 t).2.map Attempt.key =
        [cenv2.cerebrasKey, cenv2.openaiKey]) := by
  refine ⟨?_, ?_, ?_, ?_, ?_⟩
  · intro h
    cases hfe : env2.fileExists with
    | false => simp [transcribe_audio2, hfe]
    | true =>
      by_cases hg : env2.groqKey = "" <;>
        cases hr : env2.groqResult <;>
          simp [transcribe_audio2, hfe, h, hg, hr, notFireworks]
  · intro h
    cases hfe : env2.fileExists with
    | false => simp [transcribe_audio2, hfe]
    | true =>
      by_cases hf : env2.fireworksKey = "" <;>
        cases hr : env2.fireworksResult <;>
          simp [transcribe_audio2, hfe, h, hf, hr, notGroqSdk2]
  · intro h1 h2 h3
    cases hr : env1.groqResult with
    | some t => left; simp [transcribe_audio1, h1, h2, h3, hr]
    | none =>
      cases hd : env1.deepgramResult <;>
        · right; simp [transcribe_audio1, h1, h2, h3, hr, hd]
  · cases hr : cenv.groqResult with
    | some t => left; simp [process_transcription1, hr]
    | none =>
      cases ho : cenv.openaiResult <;>
        · right; simp [process_transcription1, hr, ho]
  · cases hr : cenv2.cerebrasResult with
    | some t => left; simp [process_transcription2, hr]
    | none =>
      cases ho : cenv2.openaiResult <;>
        · right; simp [process_transcription2, hr, ho]

/-- Witness for `C1_credential_guard_amended`: the Fireworks-skip branch
with an empty Fireworks key, the Groq-skip branch with an empty Groq key,
and the unconditional v1 chains and v2 cleanup chain. -/
theorem C1_credential_guard_amended_witness :
    ((transcribe_audio2 ⟨true, "", "gk", none, some "hi"⟩).2.all notFireworks) = true ∧
    ((transcribe_audio2 ⟨true, "fk", "", some "hi", none⟩).2.all notGroqSdk2) = true ∧
    ((transcribe_audio1 ⟨true, true, 5, "gk", "dk", none, some "text"⟩).2.map Attempt.key =
        ["gk"] ∨
      (transcribe_audio1 ⟨true, true, 5, "gk", "dk", none, some "text"⟩).2.map Attempt.key =
        ["gk", "dk"]) ∧
    ((process_transcription1 ⟨"ck", "ok", none, some "out"⟩ "raw").2.map Attempt.key =
        ["ck"] ∨
      (process_transcription1 ⟨"ck", "ok", none, some "out"⟩ "raw").2.map Attempt.key =
        ["ck", "ok"]) ∧
    ((process_transcription2 ⟨"", "ok2", none, some "out2"⟩ "raw").2.map Attempt.key =
        [""] ∨
      (process_transcription2 ⟨"", "ok2", none, some "out2"⟩ "raw").2.map Attempt.key =
        ["", "ok2"]) :=
  ⟨(C1_credential_guard_amended ⟨true, "", "gk", none, some "hi"⟩
      ⟨true, true, 5, "gk", "dk", none, some "text"⟩ ⟨"ck", "ok", none, some "out"⟩
      ⟨"", "ok2", none, some "out2"⟩ "raw").1 rfl,
   (C1_credential_guard_amended ⟨true, "fk", "", some "hi", none⟩
      ⟨true, true, 5, "gk", "dk", none, some "text"⟩ ⟨"ck", "ok", none, some "out"⟩
      ⟨"", "ok2", none, some "out2"⟩ "raw").2.1 rfl,
   (C1_credential_guard_amended ⟨true, "fk", "", some "hi", none⟩
      ⟨true, true, 5, "gk", "dk", none, some "text"⟩ ⟨"ck", "ok", none, some "out"⟩
      ⟨"", "ok2", none, some "out2"⟩ "raw").2.2.1 rfl rfl (by decide),
   (C1_credential_guard_amended ⟨true, "fk", "", some "hi", none⟩
      ⟨true, true, 5, "gk", "dk", none, some "text"⟩ ⟨"ck", "ok", none, some "out"⟩
      ⟨"", "ok2", none, some "out2"⟩ "raw").2.2.2.1,
   (C1_credential_guard_amended ⟨true, "fk", "", some "hi", none⟩
      ⟨true, true, 5, "gk", "dk", none, some "text"⟩ ⟨"ck", "ok", none, some "out"⟩
      ⟨"", "ok2", none, some "out2"⟩ "raw").2.2.2.2⟩

/-- C2: for both transcription chains (file checks passed, and in v2 both
credentials present so both providers are in play): an attempt returning
non-empty text is the stage result and no subsequent provider is invoked
(v1: Groq stops the chain before Deepgram; v2: a Fireworks response stops
the chain before the Groq SDK, the stage result being the stripped body);
a raising attempt advances the chain to the next provider, whose returned
text then becomes the stage result; and when every provider fails,
`transcribe_audio` returns `None` and the whole `process_audio` cycle (in
either variant) aborts with no partial output — no cleanup attempt, no
clipboard change, no paste. -/
theorem C2_chain_fallback (penv : PEnv1) (penv2 : PEnv2)
    (frames : List (List Nat)) (clip t u v w : String)
    (h1 : penv.tEnv.fileExists = true) (h2 : penv.tEnv.wavValid = true)
    (h3 : penv.tEnv.fileSize ≠ 0)
    (hlen : ¬ frames.length * CHUNK < RATE) (hff : penv.ffmpegOk = true)
    (hfe2 : penv2.tEnv.fileExists = true)
    (hfk : penv2.tEnv.fireworksKey ≠ "") (hgk : penv2.tEnv.groqKey ≠ "")
    (hff2 : penv2.ffmpegOk = true) :
    (penv.tEnv.groqResult = some t → t ≠ "" →
      transcribe_audio1 penv.tEnv =
        (some t, [⟨.groqWhisper, penv.tEnv.groqKey, none⟩])) ∧
    (penv.tEnv.groqResult = none → penv.tEnv.deepgramResult = some u →
      transcribe_audio1 penv.tEnv =
        (some u, [⟨.groqWhisper, penv.tEnv.groqKey, none⟩,
                  ⟨.deepgram, penv.tEnv.deepgramKey, none⟩])) ∧
    (penv.tEnv.groqResult = none → penv.tEnv.deepgramResult = none →
      (transcribe_audio1 penv.tEnv).1 = none ∧
      (process_audio1 penv frames clip).cleanupAttempts = [] ∧
      (process_audio1 penv frames clip).clipboard = clip ∧
      (process_audio1 penv frames clip).pasted = none) ∧
    (penv2.tEnv.fireworksResult = some v → pyStrip v ≠ "" →
      transcribe_audio2 penv2.tEnv =
        (some (pyStrip v), [⟨.fireworks, penv2.tEnv.fireworksKey, some 30⟩])) ∧
    (penv2.tEnv.fireworksResult = none → penv2.tEnv.groqResult = some w →
      transcribe_audio2 penv2.tEnv =
        (some (pyStrip w), [⟨.fireworks, penv2.tEnv.fireworksKey, some 30⟩,
                            ⟨.groqWhisper2, penv2.tEnv.groqKey, none⟩])) ∧
    (penv2.tEnv.fireworksResult = none → penv2.tEnv.groqResult = none →
      (transcribe_audio2 penv2.tEnv).1 = none ∧
      (process_audio2 penv2 frames clip).cleanupAttempts = [] ∧
      (process_audio2 penv2 frames clip).clipboard = clip ∧
      (process_audio2 penv2 frames clip).pasted = none) := by
  refine ⟨?_, ?_, ?_, ?_, ?_, ?_⟩
  · intro hg _
    simp [transcribe_audio1, h1, h2, h3, hg]
  · intro hg hd
    simp [transcribe_audio1, h1, h2, h3, hg, hd]
  · intro hg hd
    have ht : transcribe_audio1 penv.tEnv =
        (none, [⟨.groqWhisper, penv.tEnv.groqKey, none⟩,
                ⟨.deepgram, penv.tEnv.deepgramKey, none⟩]) := by
      simp [transcribe_audio1, h1, h2, h3, hg, hd]
    refine ⟨by rw [ht], ?_, ?_, ?_⟩ <;>
      simp [process_audio1, hlen, hff, ht]
  · intro hr _
    simp [transcribe_audio2, hfe2, hfk, hr]
  · intro hr hq
    simp [transcribe_audio2, hfe2, hfk, hgk, hr, hq]
  · intro hr hq
    have ht : transcribe_audio2 penv2.tEnv =
        (none, [⟨.fireworks, penv2.tEnv.fireworksKey, some 30⟩,
                ⟨.groqWhisper2, penv2.tEnv.groqKey, none⟩]) := by
      simp [transcribe_audio2, hfe2, hfk, hgk, hr, hq]
    refine ⟨by rw [ht], ?_, ?_, ?_⟩ <;>
      simp [process_audio2, hlen, hff2, ht]

/-- Witness for `C2_chain_fallback`, exercising all six branches (three
per variant) with concrete environments and a 44-chunk (≥ 1 s)
recording. -/
theorem C2_chain_fallback_witness :
    (transcribe_audio1 ⟨true, true, 9, "gk", "dk", some "hello", none⟩ =
      (some "hello", [⟨.groqWhisper, "gk", none⟩])) ∧
    (transcribe_audio1 ⟨true, true, 9, "gk", "dk", none, some "dg text"⟩ =
      (some "dg text", [⟨.groqWhisper, "gk", none⟩, ⟨.deepgram, "dk", none⟩])) ∧
    ((transcribe_audio1 ⟨true, true, 9, "gk", "dk", none, none⟩).1 = none ∧
      (process_audio1 ⟨true, ⟨true, true, 9, "gk", "dk", none, none⟩,
          ⟨"ck", "ok", some "c", some "o"⟩⟩ (List.replicate 44 [0]) "prior").cleanupAttempts = [] ∧
      (process_audio1 ⟨true, ⟨true, true, 9, "gk", "dk", none, none⟩,
          ⟨"ck", "ok", some "c", some "o"⟩⟩ (List.replicate 44 [0]) "prior").clipboard = "prior" ∧
      (process_audio1 ⟨true, ⟨true, true, 9, "gk", "dk", none, none⟩,
          ⟨"ck", "ok", some "c", some "o"⟩⟩ (List.replicate 44 [0]) "prior").pasted = none) ∧
    (transcribe_audio2 ⟨true, "fk", "gk2", some " fw text ", none⟩ =
      (some (pyStrip " fw text "), [⟨.fireworks, "fk", some 30⟩])) ∧
    (transcribe_audio2 ⟨true, "fk", "gk2", none, some " gq text "⟩ =
      (some (pyStrip " gq text "),
        [⟨.fireworks, "fk", some 30⟩, ⟨.groqWhisper2, "gk2", none⟩])) ∧
    ((transcribe_audio2 ⟨true, "fk", "gk2", none, none⟩).1 = none ∧
      (process_audio2 ⟨true, ⟨true, "fk", "gk2", none, none⟩,
          ⟨"cb", "o2", some "c2", some "o2r"⟩⟩ (List.replicate 44 [0]) "prior").cleanupAttempts = [] ∧
      (process_audio2 ⟨true, ⟨true, "fk", "gk2", none, none⟩,
          ⟨"cb", "o2", some "c2", some "o2r"⟩⟩ (List.replicate 44 [0]) "prior").clipboard = "prior" ∧
      (process_audio2 ⟨true, ⟨true, "fk", "gk2", none, none⟩,
          ⟨"cb", "o2", some "c2", some "o2r"⟩⟩ (List.replicate 44 [0]) "prior").pasted = none) :=
  ⟨(C2_chain_fallback ⟨true, ⟨true, true, 9, "gk", "dk", some "hello", none⟩,
        ⟨"ck", "ok", some "c", some "o"⟩⟩
      ⟨true, ⟨true, "fk", "gk2", some " fw text ", none⟩, ⟨"cb", "o2", some "c2", some "o2r"⟩⟩
      (List.replicate 44 [0]) "prior" "hello" "dg text" " fw text " " gq text "
      rfl rfl (by decide) (by decide) rfl rfl (by decide) (by decide) rfl).1 rfl (by decide),
   (C2_chain_fallback ⟨true, ⟨true, true, 9, "gk", "dk", none, some "dg text"⟩,
        ⟨"ck", "ok", some "c", some "o"⟩⟩
      ⟨true, ⟨true, "fk", "gk2", some " fw text ", none⟩, ⟨"cb", "o2", some "c2", some "o2r"⟩⟩
      (List.replicate 44 [0]) "prior" "hello" "dg text" " fw text " " gq text "
      rfl rfl (by decide) (by decide) rfl rfl (by decide) (by decide) rfl).2.1 rfl rfl,
   (C2_chain_fallback ⟨true, ⟨true, true, 9, "gk", "dk", none, none⟩,
        ⟨"ck", "ok", some "c", some "o"⟩⟩
      ⟨true, ⟨true, "fk", "gk2", some " fw text ", none⟩, ⟨"cb", "o2", some "c2", some "o2r"⟩⟩
      (List.replicate 44 [0]) "prior" "hello" "dg text" " fw text " " gq text "
      rfl rfl (by decide) (by decide) rfl rfl (by decide) (by decide) rfl).2.2.1 rfl rfl,
   (C2_chain_fallback ⟨true, ⟨true, true, 9, "gk", "dk", none, none⟩,
        ⟨"ck", "ok", some "c", some "o"⟩⟩
      ⟨true, ⟨true, "fk", "gk2", some " fw text ", none⟩, ⟨"cb", "o2", some "c2", some "o2r"⟩⟩
      (List.replicate 44 [0]) "prior" "hello" "dg text" " fw text " " gq text "
      rfl rfl (by decide) (by decide) rfl rfl (by decide) (by decide) rfl).2.2.2.1
        rfl (by decide),
   (C2_chain_fallback ⟨true, ⟨true, true, 9, "gk", "dk", none, none⟩,
        ⟨"ck", "ok", some "c", some "o"⟩⟩
      ⟨true, ⟨true, "fk", "gk2", none, some " gq text "⟩, ⟨"cb", "o2", some "c2", some "o2r"⟩⟩
      (List.replicate 44 [0]) "prior" "hello" "dg text" " fw text " " gq text "
      rfl rfl (by decide) (by decide) rfl rfl (by decide) (by decide) rfl).2.2.2.2.1 rfl rfl,
   (C2_chain_fallback ⟨true, ⟨true, true, 9, "gk", "dk", none, none⟩,
        ⟨"ck", "ok", some "c", some "o"⟩⟩
      ⟨true, ⟨true, "fk", "gk2", none, none⟩, ⟨"cb", "o2", some "c2", some "o2r"⟩⟩
      (List.replicate 44 [0]) "prior" "hello" "dg text" " fw text " " gq text "
      rfl rfl (by decide) (by decide) rfl rfl (by decide) (by decide) rfl).2.2.2.2.2 rfl rfl⟩

/-- C5: when every transcription provider errors, the session aborts:
no cleanup attempt is issued, nothing is pasted, the clipboard keeps its
prior value, and the `finally` block deletes both the raw temp file and
the ffmpeg output file. -/
theorem C5_transcription_failure_abort (penv : PEnv1) (frames : List (List Nat))
    (clip : String)
    (h1 : penv.tEnv.fileExists = true) (h2 : penv.tEnv.wavValid = true)
    (h3 : penv.tEnv.fileSize ≠ 0)
    (hlen : ¬ frames.length * CHUNK < RATE) (hff : penv.ffmpegOk = true)
    (hg : penv.tEnv.groqResult = none) (hd : penv.tEnv.deepgramResult = none) :
    (process_audio1 penv frames clip).cleanupAttempts = [] ∧
    (process_audio1 penv frames clip).pasted = none ∧
    (process_audio1 penv frames clip).clipboard = clip ∧
    (process_audio1 penv frames clip).tempDeleted = true ∧
    (process_audio1 penv frames clip).processedDeleted = true := by
  have ht : transcribe_audio1 penv.tEnv =
      (none, [⟨.groqWhisper, penv.tEnv.groqKey, none⟩,
              ⟨.deepgram, penv.tEnv.deepgramKey, none⟩]) := by
    simp [transcribe_audio1, h1, h2, h3, hg, hd]
  refine ⟨?_, ?_, ?_, ?_, ?_⟩ <;> simp [process_audio1, hlen, hff, ht]

/-- Witness for `C5_transcription_failure_abort` on a 44-chunk recording
with both transcription providers failing. -/
theorem C5_transcription_failure_abort_witness :
    (process_audio1 ⟨true, ⟨true, true, 7, "g", "d", none, none⟩,
        ⟨"c", "o", some "x", some "y"⟩⟩ (List.replicate 44 [1]) "before").cleanupAttempts = [] ∧
    (process_audio1 ⟨true, ⟨true, true, 7, "g", "d", none, none⟩,
        ⟨"c", "o", some "x", some "y"⟩⟩ (List.replicate 44 [1]) "before").pasted = none ∧
    (process_audio1 ⟨true, ⟨true, true, 7, "g", "d", none, none⟩,
        ⟨"c", "o", some "x", some "y"⟩⟩ (List.replicate 44 [1]) "before").clipboard = "before" ∧
    (process_audio1 ⟨true, ⟨true, true, 7, "g", "d", none, none⟩,
        ⟨"c", "o", some "x", some "y"⟩⟩ (List.replicate 44 [1]) "before").tempDeleted = true ∧
    (process_audio1 ⟨true, ⟨true, true, 7, "g", "d", none, none⟩,
        ⟨"c", "o", some "x", some "y"⟩⟩ (List.replicate 44 [1]) "before").processedDeleted = true :=
  C5_transcription_failure_abort ⟨true, ⟨true, true, 7, "g", "d", none, none⟩,
    ⟨"c", "o", some "x", some "y"⟩⟩ (List.replicate 44 [1]) "before"
    rfl rfl (by decide) (by decide) rfl rfl rfl

/-- C6: a recording whose buffer holds fewer than `RATE / CHUNK` chunks
(`frames.length * CHUNK < RATE`, the integer form of the float comparison
at v1 line 139) is discarded silently: ffmpeg is never invoked, no
transcription or cleanup attempt is issued, the clipboard keeps its prior
value and nothing is pasted. -/
theorem C6_short_recording_discarded (penv : PEnv1) (frames : List (List Nat))
    (clip : String) (hshort : frames.length * CHUNK < RATE) :
    (process_audio1 penv frames clip).ffmpegInvoked = false ∧
    (process_audio1 penv frames clip).transcribeAttempts = [] ∧
    (process_audio1 penv frames clip).cleanupAttempts = [] ∧
    (process_audio1 penv frames clip).clipboard = clip ∧
    (process_audio1 penv frames clip).pasted = none := by
  refine ⟨?_, ?_, ?_, ?_, ?_⟩ <;> simp [process_audio1, hshort]

/-- Witness for `C6_short_recording_discarded` on a 43-chunk buffer, the
largest size still below one second (43 · 1024 = 44032 < 44100). -/
theorem C6_short_recording_discarded_witness :
    (process_audio1 ⟨true, ⟨true, true, 7, "g", "d", some "hi", none⟩,
        ⟨"c", "o", some "x", some "y"⟩⟩ (List.replicate 43 [1]) "keep").ffmpegInvoked = false ∧
    (process_audio1 ⟨true, ⟨true, true, 7, "g", "d", some "hi", none⟩,
        ⟨"c", "o", some "x", some "y"⟩⟩ (List.replicate 43 [1]) "keep").transcribeAttempts = [] ∧
    (process_audio1 ⟨true, ⟨true, true, 7, "g", "d", some "hi", none⟩,
        ⟨"c", "o", some "x", some "y"⟩⟩ (List.replicate 43 [1]) "keep").cleanupAttempts = [] ∧
    (process_audio1 ⟨true, ⟨true, true, 7, "g", "d", some "hi", none⟩,
        ⟨"c", "o", some "x", some "y"⟩⟩ (List.replicate 43 [1]) "keep").clipboard = "keep" ∧
    (process_audio1 ⟨true, ⟨true, true, 7, "g", "d", some "hi", none⟩,
        ⟨"c", "o", some "x", some "y"⟩⟩ (List.replicate 43 [1]) "keep").pasted = none :=
  C6_short_recording_discarded ⟨true, ⟨true, true, 7, "g", "d", some "hi", none⟩,
    ⟨"c", "o", some "x", some "y"⟩⟩ (List.replicate 43 [1]) "keep" (by decide)

/-- C8: when every cleanup provider fails, `process_transcription` returns
`None`; back in `process_audio`, `pyperclip.copy(None)` raises before any
clipboard write, so the session delivers no output — nothing is pasted,
the clipboard keeps its prior value, and the raw transcript is not fallen
back to (the output stage is only ever handed the cleanup result, never
the transcript). -/
theorem C8_cleanup_failure_no_output (penv : PEnv1) (frames : List (List Nat))
    (clip s : String)
    (h1 : penv.tEnv.fileExists = true) (h2 : penv.tEnv.wavValid = true)
    (h3 : penv.tEnv.fileSize ≠ 0)
    (hlen : ¬ frames.length * CHUNK < RATE) (hff : penv.ffmpegOk = true)
    (hts : penv.tEnv.groqResult = some s) (hne : s ≠ "")
    (hcg : penv.cEnv.groqResult = none) (hco : penv.cEnv.openaiResult = none) :
    (process_transcription1 penv.cEnv s).1 = none ∧
    (process_audio1 penv frames clip).pasted = none ∧
    (process_audio1 penv frames clip).clipboard = clip := by
  have ht : transcribe_audio1 penv.tEnv =
      (some s, [⟨.groqWhisper, penv.tEnv.groqKey, none⟩]) := by
    simp [transcribe_audio1, h1, h2, h3, hts]
  have hc : process_transcription1 penv.cEnv s =
      (none, [⟨.groqChat, penv.cEnv.groqKey, some 30⟩,
              ⟨.openaiChat, penv.cEnv.openaiKey, some 30⟩]) := by
    simp [process_transcription1, hcg, hco]
  refine ⟨by rw [hc], ?_, ?_⟩ <;>
    simp [process_audio1, hlen, hff, ht, hne, hc]

/-- Witness for `C8_cleanup_failure_no_output`: a successful transcription
followed by both cleanup providers failing. -/
theorem C8_cleanup_failure_no_output_witness :
    (process_transcription1 ⟨"c", "o", none, none⟩ "raw words").1 = none ∧
    (process_audio1 ⟨true, ⟨true, true, 7, "g", "d", some "raw words", none⟩,
        ⟨"c", "o", none, none⟩⟩ (List.replicate 44 [1]) "old").pasted = none ∧
    (process_audio1 ⟨true, ⟨true, true, 7, "g", "d", some "raw words", none⟩,
        ⟨"c", "o", none, none⟩⟩ (List.replicate 44 [1]) "old").clipboard = "old" :=
  C8_cleanup_failure_no_output ⟨true, ⟨true, true, 7, "g", "d", some "raw words", none⟩,
    ⟨"c", "o", none, none⟩⟩ (List.replicate 44 [1]) "old" "raw words"
    rfl rfl (by decide) (by decide) rfl rfl (by decide) rfl rfl

/-- C9 (counterexample): the v1 Groq SDK transcription call passes no
timeout parameter at all, so not every network call of a provider attempt
is issued with a bounded 30-second timeout. -/
theorem C9_counterexample :
    ((transcribe_audio1 ⟨true, true, 5, "gk", "dk", some "hello", none⟩).2.all
      timeout30) = false := by
  decide

/-- C9 (amended): the `requests.post` network calls (Fireworks
transcription, and both cleanup chains in either variant) all pass
`timeout=30`, and a failed primary cleanup attempt (which includes a
timeout expiry, surfaced as `requests.RequestException`) advances the
chain to the fallback provider; the SDK-based calls (Groq transcription
in both variants, Deepgram) pass no explicit timeout parameter. -/
theorem C9_timeouts_amended (env1 : TEnv1) (env2 : TEnv2) (cenv : CEnv1)
    (cenv2 : CEnv2) (t : String) :
    ((process_transcription1 cenv t).2.all timeout30) = true ∧
    ((process_transcription2 cenv2 t).2.all timeout30) = true ∧
    ((transcribe_audio2 env2).2.all fireworksHas30) = true ∧
    ((transcribe_audio1 env1).2.all sdkNoTimeout) = true ∧
    ((transcribe_audio2 env2).2.all sdkNoTimeout) = true ∧
    (cenv.groqResult = none → cenv.openaiResult = none →
      (process_transcription1 cenv t).2.map Attempt.provider =
        [.groqChat, .openaiChat]) := by
  refine ⟨?_, ?_, ?_, ?_, ?_, ?_⟩
  · cases hr : cenv.groqResult <;> cases ho : cenv.openaiResult <;>
      simp [process_transcription1, hr, ho, timeout30]
  · cases hr : cenv2.cerebrasResult <;> cases ho : cenv2.openaiResult <;>
      simp [process_transcription2, hr, ho, timeout30]
  · cases hfe : env2.fileExists with
    | false => simp [transcribe_audio2, hfe]
    | true =>
      by_cases hf : env2.fireworksKey = "" <;> by_cases hg : env2.groqKey = "" <;>
        cases hr : env2.fireworksResult <;> cases hq : env2.groqResult <;>
          simp [transcribe_audio2, hfe, hf, hg, hr, hq, fireworksHas30]
  · cases hfe : env1.fileExists <;> cases hwv : env1.wavValid <;>
      by_cases hsz : env1.fileSize = 0 <;>
        cases hr : env1.groqResult <;> cases hd : env1.deepgramResult <;>
          simp [transcribe_audio1, hfe, hwv, hsz, hr, hd, sdkNoTimeout]
  · cases hfe : env2.fileExists with
    | false => simp [transcribe_audio2, hfe]
    | true =>
      by_cases hf : env2.fireworksKey = "" <;> by_cases hg : env2.groqKey = "" <;>
        cases hr : env2.fireworksResult <;> cases hq : env2.groqResult <;>
          simp [transcribe_audio2, hfe, hf, hg, hr, hq, sdkNoTimeout]
  · intro hr ho
    simp [process_transcription1, hr, ho]

/-- Witness for `C9_timeouts_amended` at concrete environments, with both
cleanup providers failing for the chain-advance conjunct. -/
theorem C9_timeouts_amended_witness :
    ((process_transcription1 ⟨"c", "o", none, none⟩ "w").2.all timeout30) = true ∧
    ((process_transcription2 ⟨"cb", "o", none, some "y"⟩ "w").2.all timeout30) = true ∧
    ((transcribe_audio2 ⟨true, "fk", "gk", none, some "z"⟩).2.all fireworksHas30) = true ∧
    ((transcribe_audio1 ⟨true, true, 5, "gk", "dk", none, none⟩).2.all sdkNoTimeout) = true ∧
    ((transcribe_audio2 ⟨true, "fk", "gk", none, some "z"⟩).2.all sdkNoTimeout) = true ∧
    ((process_transcription1 ⟨"c", "o", none, none⟩ "w").2.map Attempt.provider =
      [.groqChat, .openaiChat]) :=
  ⟨(C9_timeouts_amended ⟨true, true, 5, "gk", "dk", none, none⟩
      ⟨true, "fk", "gk", none, some "z"⟩ ⟨"c", "o", none, none⟩
      ⟨"cb", "o", none, some "y"⟩ "w").1,
   (C9_timeouts_amended ⟨true, true, 5, "gk", "dk", none, none⟩
      ⟨true, "fk", "gk", none, some "z"⟩ ⟨"c", "o", none, none⟩
      ⟨"cb", "o", none, some "y"⟩ "w").2.1,
   (C9_timeouts_amended ⟨true, true, 5, "gk", "dk", none, none⟩
      ⟨true, "fk", "gk", none, some "z"⟩ ⟨"c", "o", none, none⟩
      ⟨"cb", "o", none, some "y"⟩ "w").2.2.1,
   (C9_timeouts_amended ⟨true, true, 5, "gk", "dk", none, none⟩
      ⟨true, "fk", "gk", none, some "z"⟩ ⟨"c", "o", none, none⟩
      ⟨"cb", "o", none, some "y"⟩ "w").2.2.2.1,
   (C9_timeouts_amended ⟨true, true, 5, "gk", "dk", none, none⟩
      ⟨true, "fk", "gk", none, some "z"⟩ ⟨"c", "o", none, none⟩
      ⟨"cb", "o", none, some "y"⟩ "w").2.2.2.2.1,
   (C9_timeouts_amended ⟨true, true, 5, "gk", "dk", none, none⟩
      ⟨true, "fk", "gk", none, some "z"⟩ ⟨"c", "o", none, none⟩
      ⟨"cb", "o", none, some "y"⟩ "w").2.2.2.2.2 rfl rfl⟩

/-- C10: every run of `process_audio`, including one on a buffer shorter
than one second that is then discarded, first creates the raw temp WAV and
writes the whole joined frame buffer to it — the write precedes the
minimum-length check — and the `finally` block deletes that file; so even
a discarded recording creates and then deletes a temp file rather than
leaving the file system untouched. -/
theorem C10_temp_file_lifecycle (penv : PEnv1) (frames : List (List Nat))
    (clip : String) :
    (process_audio1 penv frames clip).tempCreated = true ∧
    (process_audio1 penv frames clip).tempBytes = frames.flatten ∧
    (process_audio1 penv frames clip).tempDeleted = true := by
  unfold process_audio1
  repeat' split <;> try exact ⟨rfl, rfl, rfl⟩

end VoiceFlow
